import Mathlib

/-!
Verification of the financial calculation engine of the PlantillasFinanzas
repository (src/app/services/financial_engine.py, commission_rules.py and
src/app/utils/math_utils.py), as a shallow embedding into Lean.

Modelling conventions:
- Python floats are modelled as rationals (ℚ); arithmetic is exact.
- A dict key that may be absent (or hold None) is an `Option` field; the
  Python idiom `x.get(k) or v` (which maps both a missing key, None and 0
  to the default for numbers) is `Option.getD` — numerically identical
  for numbers, since `0 or v` and `Option.getD (some 0) v` only differ
  when `v ≠ 0`, a case called out explicitly where it matters
  (`CurrencyConverter.init`, `pyIntOr1`).
- The engine mutates its input dict and its line-item dicts in place;
  this is modelled by explicit state passing: every function that writes
  into a dict returns the updated value.
- Python list index assignment `l[i] = v` (which wraps a negative index
  into the range `[-len, 0)`) is `pySet`; an out-of-range write, which
  raises IndexError in Python, is totalised as a no-op here (no claim
  exercises that path).
-/

namespace PlantillasFinanzas

/-- Recurring service line dict. `Q`, `P_original`, `P_currency`,
`CU1_original`, `CU2_original`, `CU_currency` are the input keys; the
`_pen` keys are derived, written by `process_recurring_services`. -/
structure ServiceLine where
  Q : Option ℚ
  P_original : Option ℚ
  P_currency : Option String
  CU1_original : Option ℚ
  CU2_original : Option ℚ
  CU_currency : Option String
  P_pen : Option ℚ
  ingreso_pen : Option ℚ
  CU1_pen : Option ℚ
  CU2_pen : Option ℚ
  egreso_pen : Option ℚ
deriving DecidableEq

/-- Fixed cost line dict. `costoUnitario_pen` and `total_pen` are derived,
written by `process_fixed_costs`. -/
structure FixedCostLine where
  cantidad : Option ℚ
  costoUnitario_original : Option ℚ
  costoUnitario_currency : Option String
  costoUnitario_pen : Option ℚ
  total_pen : Option ℚ
  periodo_inicio : Option ℤ
  duracion_meses : Option ℤ
  id : Option ℤ
  categoria : Option String
  tipo_servicio : Option String
deriving DecidableEq

/-- The transaction data dict handed to `calculate_financial_metrics`.
The last four fields (`totalRevenue`, `grossMargin`, `grossMarginRatio`,
`MRC_pen`) are derived keys written into the dict by
`calculate_commission`; all other fields are input keys, which the engine
reads but never writes. -/
structure Data where
  tipoCambio : Option ℚ
  plazoContrato : Option ℤ
  recurring_services : List ServiceLine
  MRC_original : Option ℚ
  MRC_currency : Option String
  NRC_original : Option ℚ
  NRC_currency : Option String
  fixed_costs : List FixedCostLine
  aplicaCartaFianza : Option Bool
  tasaCartaFianza : Option ℚ
  costoCapitalAnual : Option ℚ
  unidadNegocio : Option String
  MRC : Option ℚ
  payback : Option ℚ
  gigalan_region : Option String
  gigalan_sale_type : Option String
  gigalan_old_mrc : Option ℚ
  totalRevenue : Option ℚ
  grossMargin : Option ℚ
  grossMarginRatio : Option ℚ
  MRC_pen : Option ℚ
deriving DecidableEq

/-- Python truthiness of an optional string: `not s` is true for a missing
key, None and the empty string. -/
def pyTruthyStr (s : Option String) : Bool :=
  match s with
  | none => false
  | some str => str ≠ ""

/-- Python list assignment `l[i] = v`: a negative index wraps around from
the end; an index outside `[-len, len)` raises IndexError in Python and is
a no-op here. -/
def pySet (l : List ℚ) (i : ℤ) (v : ℚ) : List ℚ :=
  if 0 ≤ i then l.set i.toNat v
  else if 0 ≤ i + l.length then l.set (i + l.length).toNat v
  else l

/-- The Python coercion `int(x or 1)` applied to the optional integer
`duracion_meses`: a missing key, None and 0 all become 1. -/
def pyIntOr1 (o : Option ℤ) : ℤ :=
  match o with
  | none => 1
  | some v => if v = 0 then 1 else v

-- --- CurrencyConverter (financial_engine.py) ---

/-- Holds exchange rate state and converts values to PEN. -/
structure CurrencyConverter where
  tipo_cambio : ℚ
deriving DecidableEq

/-- The constructor body `self.tipo_cambio = tipo_cambio or 1`: a missing
`tipoCambio` key, None and a zero rate are all replaced by 1. -/
def CurrencyConverter.init (tipoCambio : Option ℚ) : CurrencyConverter :=
  ⟨match tipoCambio with
   | none => 1
   | some v => if v = 0 then 1 else v⟩

/-- Method `to_pen`: `value = value or 0.0`, then multiply by the rate
when the currency is USD, else return the value unchanged. -/
def CurrencyConverter.to_pen (c : CurrencyConverter) (value : Option ℚ)
    (currency : String) : ℚ :=
  let v := value.getD 0
  if currency = "USD" then v * c.tipo_cambio else v

-- --- math_utils.py ---

/-- Function `calculate_npv`: `Σ cf_t / (1+r)^t`; None on an empty list,
and None when the Python loop would divide by zero (rate = -1 with at
least two periods — the `except` branch of the source). -/
def calculate_npv (discount_rate : ℚ) (cash_flows : List ℚ) : Option ℚ :=
  if cash_flows = [] then none
  else if 1 + discount_rate = 0 ∧ 2 ≤ cash_flows.length then none
  else some ((cash_flows.enum.map
    (fun p => p.2 / (1 + discount_rate) ^ p.1)).sum)

/-- The NPV sum evaluated inside the IRR loop at the current rate. -/
def irrNpv (rate : ℚ) (cash_flows : List ℚ) : ℚ :=
  (cash_flows.enum.map (fun p => p.2 / (1 + rate) ^ p.1)).sum

/-- The derivative `Σ -t·cf_t/(1+r)^(t+1)` used by the Newton-Raphson
step of `calculate_irr`. -/
def irrDeriv (rate : ℚ) (cash_flows : List ℚ) : ℚ :=
  (cash_flows.enum.map
    (fun p => -(p.1 : ℚ) * p.2 / (1 + rate) ^ (p.1 + 1))).sum

/-- The `for iteration in range(max_iterations)` loop of `calculate_irr`,
as fuel recursion: tolerance check, stalled-derivative check,
Newton-Raphson update, sanity bounds `(-0.99, 10)`. -/
def irrLoop (cash_flows : List ℚ) : ℕ → ℚ → Option ℚ
  | 0, _ => none
  | fuel + 1, rate =>
    let npv := irrNpv rate cash_flows
    if |npv| < 1 / 1000000 then some rate
    else
      let derivative := irrDeriv rate cash_flows
      if |derivative| < 1 / 10000000000 then none
      else
        let rate2 := rate - npv / derivative
        if rate2 < -(99 / 100) ∨ 10 < rate2 then none
        else irrLoop cash_flows fuel rate2

/-- Function `calculate_irr`: None for fewer than two cash flows; None
immediately when the series does not contain both a strictly positive and
a strictly negative value; otherwise Newton-Raphson from a 10% initial
guess with a budget of 100 iterations. -/
def calculate_irr (cash_flows : List ℚ) : Option ℚ :=
  if cash_flows.length < 2 then none
  else if ¬ ((cash_flows.any fun cf => 0 < cf) ∧
             (cash_flows.any fun cf => cf < 0)) then none
  else irrLoop cash_flows 100 (10 / 100)

-- --- commission_rules.py ---

/-- Source `_calculate_estado_commission`: the ESTADO rule set. Reads
`totalRevenue`, `plazoContrato`, `payback`, `MRC` (note: the key `MRC`,
not `MRC_pen`) and `grossMarginRatio` from the data dict. -/
def calculate_estado_commission (data : Data) : ℚ :=
  let total_revenues := data.totalRevenue.getD 0
  if total_revenues = 0 then 0
  else
    let plazo := data.plazoContrato.getD 0
    let payback := data.payback
    let mrc := data.MRC.getD 0
    let payback_ok := payback.isSome
    let rentabilidad := data.grossMarginRatio.getD 0
    let is_pago_unico := plazo ≤ 1
    if is_pago_unico then
      let rl : ℚ × ℚ :=
        if 0.30 ≤ rentabilidad ∧ rentabilidad ≤ 0.35 then (0.01, 11000)
        else if 0.35 < rentabilidad ∧ rentabilidad ≤ 0.39 then (0.02, 12000)
        else if 0.39 < rentabilidad ∧ rentabilidad ≤ 0.49 then (0.03, 13000)
        else if 0.49 < rentabilidad ∧ rentabilidad ≤ 0.59 then (0.04, 14000)
        else if 0.59 < rentabilidad then (0.05, 15000)
        else (0, 0)
      if 0 < rl.1 then min (total_revenues * rl.1) rl.2 else 0
    else
      let pb := payback.getD 0
      let rl : ℚ × ℚ :=
        if plazo = 12 then
          if 0.30 ≤ rentabilidad ∧ rentabilidad ≤ 0.35 ∧ payback_ok ∧ pb ≤ 7 then (0.025, 0.8)
          else if 0.35 < rentabilidad ∧ rentabilidad ≤ 0.39 ∧ payback_ok ∧ pb ≤ 7 then (0.03, 0.9)
          else if 0.39 < rentabilidad ∧ payback_ok ∧ pb ≤ 6 then (0.035, 1.0)
          else (0, 0)
        else if plazo = 24 then
          if 0.30 ≤ rentabilidad ∧ rentabilidad ≤ 0.35 ∧ payback_ok ∧ pb ≤ 11 then (0.025, 0.8)
          else if 0.35 < rentabilidad ∧ rentabilidad ≤ 0.39 ∧ payback_ok ∧ pb ≤ 11 then (0.03, 0.9)
          else if 0.39 < rentabilidad ∧ payback_ok ∧ pb ≤ 10 then (0.035, 1.0)
          else (0, 0)
        else if plazo = 36 then
          if 0.30 ≤ rentabilidad ∧ rentabilidad ≤ 0.35 ∧ payback_ok ∧ pb ≤ 19 then (0.025, 0.8)
          else if 0.35 < rentabilidad ∧ rentabilidad ≤ 0.39 ∧ payback_ok ∧ pb ≤ 19 then (0.03, 0.9)
          else if 0.39 < rentabilidad ∧ payback_ok ∧ pb ≤ 18 then (0.035, 1.0)
          else (0, 0)
        else if plazo = 48 then
          if 0.30 ≤ rentabilidad ∧ rentabilidad ≤ 0.35 ∧ payback_ok ∧ pb ≤ 26 then (0.02, 0.8)
          else if 0.35 < rentabilidad ∧ rentabilidad ≤ 0.39 ∧ payback_ok ∧ pb ≤ 26 then (0.025, 0.9)
          else if 0.39 < rentabilidad ∧ payback_ok ∧ pb ≤ 25 then (0.03, 1.0)
          else (0, 0)
        else (0, 0)
      if 0 < rl.1 then min (total_revenues * rl.1) (mrc * rl.2) else 0

/-- Steps 5-6 of `_calculate_gigalan_commission`: the region × margin-band
rate matrix followed by the final amount formula (new customer:
`rate × MRC × plazo`; upgrade: `rate × plazo × (MRC − old MRC)`). -/
def gigalanAmount (region sale_type : Option String) (rentabilidad : ℚ)
    (plazo : ℤ) (mrc_pen old_mrc_pen : ℚ) : ℚ :=
  let commission_rate : ℚ :=
    if region = some "LIMA" then
      if sale_type = some "NUEVO" then
        if 0.40 ≤ rentabilidad ∧ rentabilidad < 0.50 then 0.009
        else if 0.50 ≤ rentabilidad ∧ rentabilidad < 0.60 then 0.014
        else if 0.60 ≤ rentabilidad ∧ rentabilidad < 0.70 then 0.019
        else if 0.70 ≤ rentabilidad then 0.024
        else 0
      else if sale_type = some "EXISTENTE" then
        if 0.40 ≤ rentabilidad ∧ rentabilidad < 0.50 then 0.01
        else if 0.50 ≤ rentabilidad ∧ rentabilidad < 0.60 then 0.015
        else if 0.60 ≤ rentabilidad ∧ rentabilidad < 0.70 then 0.02
        else if 0.70 ≤ rentabilidad then 0.025
        else 0
      else 0
    else if region = some "PROVINCIAS CON CACHING" then
      if 0.40 ≤ rentabilidad ∧ rentabilidad < 0.45 then 0.03
      else if 0.45 ≤ rentabilidad then 0.035
      else 0
    else if region = some "PROVINCIAS CON INTERNEXA" then
      if 0.17 ≤ rentabilidad ∧ rentabilidad < 0.20 then 0.02
      else if 0.20 ≤ rentabilidad then 0.03
      else 0
    else if region = some "PROVINCIAS CON TDP" then
      if 0.17 ≤ rentabilidad ∧ rentabilidad < 0.20 then 0.02
      else if 0.20 ≤ rentabilidad then 0.03
      else 0
    else 0
  if sale_type = some "NUEVO" then commission_rate * mrc_pen * plazo
  else if sale_type = some "EXISTENTE" then
    commission_rate * plazo * (mrc_pen - old_mrc_pen)
  else 0

/-- Source `_calculate_gigalan_commission`: the GIGALAN rule set. Returns
0 when region or sale type is missing/empty, and 0 when a known payback is
`>= 2` (`if payback is not None and payback >= 2`); an unknown (None)
payback falls through to the rate matrix. -/
def calculate_gigalan_commission (data : Data) : ℚ :=
  let region := data.gigalan_region
  let sale_type := data.gigalan_sale_type
  let old_mrc_pen := data.gigalan_old_mrc.getD 0
  let rentabilidad := data.grossMarginRatio.getD 0
  let plazo := data.plazoContrato.getD 0
  let mrc_pen := data.MRC.getD 0
  if ¬ pyTruthyStr region ∨ ¬ pyTruthyStr sale_type then 0
  else
    match data.payback with
    | some p =>
        if 2 ≤ p then 0
        else gigalanAmount region sale_type rentabilidad plazo mrc_pen old_mrc_pen
    | none => gigalanAmount region sale_type rentabilidad plazo mrc_pen old_mrc_pen

/-- Source `_calculate_corporativo_commission`: placeholder CORPORATIVO
logic; `calculated_commission` is the literal 0 and the result is
`min(0, 1.2 × MRC)` (again reading the key `MRC`). -/
def calculate_corporativo_commission (data : Data) : ℚ :=
  let mrc_pen := data.MRC.getD 0
  let calculated_commission : ℚ := 0
  let limit_mrc_amount := 1.2 * mrc_pen
  min calculated_commission limit_mrc_amount

/-- Source `_calculate_final_commission`: dispatch on `unidadNegocio`;
an unknown or missing unit yields 0. -/
def calculate_final_commission (data : Data) : ℚ :=
  if data.unidadNegocio = some "ESTADO" then calculate_estado_commission data
  else if data.unidadNegocio = some "GIGALAN" then calculate_gigalan_commission data
  else if data.unidadNegocio = some "CORPORATIVO" then calculate_corporativo_commission data
  else 0

-- --- financial_engine.py ---

/-- The body of the `for item in services` loop of
`process_recurring_services`: the enriched item, with the `_pen` derived
keys written in place. -/
def enrichService (conv : CurrencyConverter) (item : ServiceLine) : ServiceLine :=
  let q := item.Q.getD 0
  let P_original := item.P_original.getD 0
  let P_currency := item.P_currency.getD "PEN"
  let P_pen := conv.to_pen (some P_original) P_currency
  let CU1_original := item.CU1_original.getD 0
  let CU2_original := item.CU2_original.getD 0
  let CU_currency := item.CU_currency.getD "USD"
  let CU1_pen := conv.to_pen (some CU1_original) CU_currency
  let CU2_pen := conv.to_pen (some CU2_original) CU_currency
  { item with
      P_pen := some P_pen
      ingreso_pen := some (P_pen * q)
      CU1_pen := some CU1_pen
      CU2_pen := some CU2_pen
      egreso_pen := some ((CU1_pen + CU2_pen) * q) }

/-- One iteration of the `for item in services` loop: appends the
enriched item and accumulates `total_monthly_expense_pen` (from the
freshly written `egreso_pen`) and `mrc_sum_orig` (`P_original * Q`). -/
def serviceStep (conv : CurrencyConverter)
    (acc : List ServiceLine × ℚ × ℚ) (item : ServiceLine) :
    List ServiceLine × ℚ × ℚ :=
  let item2 := enrichService conv item
  (acc.1 ++ [item2],
   acc.2.1 + item2.egreso_pen.getD 0,
   acc.2.2 + item.P_original.getD 0 * item.Q.getD 0)

/-- Source `process_recurring_services`: enriches each service line in
place and returns `(services, total_monthly_expense_pen,
mrc_sum_from_services_orig)`. -/
def process_recurring_services (services : List ServiceLine)
    (conv : CurrencyConverter) : List ServiceLine × ℚ × ℚ :=
  services.foldl (serviceStep conv) ([], 0, 0)

/-- Source `resolve_mrc`: a user-provided MRC `> 0` overrides the sum
from services; the resolved value is then converted to PEN. Returns
`(final_mrc_original, final_mrc_pen)`. -/
def resolve_mrc (user_provided_mrc_original : Option ℚ)
    (mrc_sum_from_services_orig : ℚ) (mrc_currency : String)
    (conv : CurrencyConverter) : ℚ × ℚ :=
  let user_provided := user_provided_mrc_original.getD 0
  let final_mrc_original :=
    if 0 < user_provided then user_provided else mrc_sum_from_services_orig
  (final_mrc_original, conv.to_pen (some final_mrc_original) mrc_currency)

/-- The body of the `for item in fixed_costs` loop of
`process_fixed_costs`: the enriched line, with `costoUnitario_pen` and
`total_pen` written in place. -/
def enrichFixedCost (conv : CurrencyConverter) (item : FixedCostLine) : FixedCostLine :=
  let cantidad := item.cantidad.getD 0
  let costoUnitario_original := item.costoUnitario_original.getD 0
  let costoUnitario_currency := item.costoUnitario_currency.getD "USD"
  let costoUnitario_pen := conv.to_pen (some costoUnitario_original) costoUnitario_currency
  { item with
      costoUnitario_pen := some costoUnitario_pen
      total_pen := some (cantidad * costoUnitario_pen) }

/-- One iteration of the `for item in fixed_costs` loop: appends the
enriched line and accumulates `total_installation_pen` from the freshly
written `total_pen`. -/
def costStep (conv : CurrencyConverter) (acc : List FixedCostLine × ℚ)
    (item : FixedCostLine) : List FixedCostLine × ℚ :=
  let item2 := enrichFixedCost conv item
  (acc.1 ++ [item2], acc.2 + item2.total_pen.getD 0)

/-- Source `process_fixed_costs`: normalizes fixed costs to PEN in place
and returns `(enriched_costs, total_installation_pen)`. -/
def process_fixed_costs (fixed_costs : List FixedCostLine)
    (conv : CurrencyConverter) : List FixedCostLine × ℚ :=
  fixed_costs.foldl (costStep conv) ([], 0)

/-- Source `calculate_carta_fianza`: `0.10 × plazo × MRC_orig × 1.18 ×
tasa`, computed in the original MRC currency and then converted to PEN.
Returns `(costo_orig, costo_pen)`. -/
def calculate_carta_fianza (aplica : Bool) (tasa : Option ℚ) (plazo : ℤ)
    (mrc_original : ℚ) (mrc_currency : String) (conv : CurrencyConverter) :
    ℚ × ℚ :=
  if ¬ aplica then (0, 0)
  else
    let t := tasa.getD 0
    let costo_orig := 0.10 * (plazo : ℚ) * mrc_original * 1.18 * t
    (costo_orig, conv.to_pen (some costo_orig) mrc_currency)

/-- Source `calculate_commission`: writes `totalRevenue`, `grossMargin`,
`grossMarginRatio` and `MRC_pen` into the data dict and delegates to
`_calculate_final_commission`. Returns the mutated dict and the
commission amount. -/
def calculate_commission (data : Data) (total_revenue gross_margin_pre
    gross_margin_ratio mrc_pen : ℚ) : Data × ℚ :=
  let d := { data with
               totalRevenue := some total_revenue
               grossMargin := some gross_margin_pre
               grossMarginRatio := some gross_margin_ratio
               MRC_pen := some mrc_pen }
  (d, calculate_final_commission d)

-- --- TimelineGenerator (financial_engine.py) ---

/-- One element of `timeline['expenses']['fixed_costs']` as appended by
`build_timeline`. -/
structure FixedCostEntry where
  id : Option ℤ
  categoria : Option String
  tipo_servicio : Option String
  total : ℚ
  periodo_inicio : ℤ
  duracion_meses : ℤ
  timeline_values : List ℚ
deriving DecidableEq

/-- The timeline dict built by `initialize_timeline` / `build_timeline`. -/
structure Timeline where
  periods : List String
  nrc : List ℚ
  mrc : List ℚ
  comisiones : List ℚ
  egreso : List ℚ
  fixed_costs : List FixedCostEntry
  net_cash_flow : List ℚ
deriving DecidableEq

/-- The `for i in range(duracion_meses)` loop of the fixed-cost
distribution in `build_timeline`, recursing on the remaining iteration
count with `p` the current period index (`periodo_inicio + i`): a period
inside the horizon receives `-distributed_cost` and is added to the
applied total; a period past the horizon is silently skipped. -/
def fcApply (num_periods : ℕ) (distributed_cost : ℚ) :
    ℕ → ℤ → List ℚ → ℚ → List ℚ × ℚ
  | 0, _, vals, acc => (vals, acc)
  | k + 1, p, vals, acc =>
    if p < (num_periods : ℤ) then
      fcApply num_periods distributed_cost k (p + 1)
        (pySet vals p (-distributed_cost)) (acc + distributed_cost)
    else fcApply num_periods distributed_cost k (p + 1) vals acc

/-- The body of the `for cost_item in fixed_costs` loop of
`build_timeline`: distributes one line evenly over its window and returns
the appended entry together with the amount applied within the horizon. -/
def processCostItem (num_periods : ℕ) (cost_item : FixedCostLine) :
    FixedCostEntry × ℚ :=
  let cost_total_pen := cost_item.total_pen.getD 0
  let periodo_inicio := cost_item.periodo_inicio.getD 0
  let duracion_meses := pyIntOr1 cost_item.duracion_meses
  let distributed_cost := cost_total_pen / (duracion_meses : ℚ)
  let r := fcApply num_periods distributed_cost duracion_meses.toNat
    periodo_inicio (List.replicate num_periods 0) 0
  ({ id := cost_item.id
     categoria := cost_item.categoria
     tipo_servicio := cost_item.tipo_servicio
     total := cost_total_pen
     periodo_inicio := periodo_inicio
     duracion_meses := duracion_meses
     timeline_values := r.1 }, r.2)

/-- Source `build_timeline`: revenues (NRC at period 0, MRC at periods
1..), expenses (commission + bond at period 0, recurring expense at
periods 1..), fixed-cost distribution, and the net cash flow per period.
Returns `(timeline, total_fixed_costs_applied_pen, net_cash_flow_list)`.
The `initialize_timeline` zero lists are inlined. -/
def build_timeline (num_periods : ℕ) (nrc_pen mrc_pen comisiones
    carta_fianza_pen monthly_expense_pen : ℚ)
    (fixed_costs : List FixedCostLine) : Timeline × ℚ × List ℚ :=
  let nrcL := pySet (List.replicate num_periods 0) 0 nrc_pen
  let mrcL := (List.range num_periods).map fun i =>
    if 1 ≤ i then mrc_pen else 0
  let comisionesL := pySet (List.replicate num_periods 0) 0
    (-comisiones - carta_fianza_pen)
  let egresoL := (List.range num_periods).map fun i =>
    if 1 ≤ i then -monthly_expense_pen else 0
  let fc := fixed_costs.foldl
    (fun (acc : List FixedCostEntry × ℚ) cost_item =>
      let r := processCostItem num_periods cost_item
      (acc.1 ++ [r.1], acc.2 + r.2))
    ([], 0)
  let net_cash_flow_list := (List.range num_periods).map fun t =>
    nrcL.getD t 0 + mrcL.getD t 0 + comisionesL.getD t 0 + egresoL.getD t 0 +
      fc.1.foldl (fun s e => s + e.timeline_values.getD t 0) 0
  ({ periods := (List.range num_periods).map fun i => "t=" ++ toString i
     nrc := nrcL
     mrc := mrcL
     comisiones := comisionesL
     egreso := egresoL
     fixed_costs := fc.1
     net_cash_flow := net_cash_flow_list }, fc.2, net_cash_flow_list)

-- --- KPICalculator (financial_engine.py) ---

/-- The payback scan of `calculate_kpis`: the first period index at which
the cumulative net cash flow is `>= 0`, None if never reached. -/
def paybackScan : List ℚ → ℚ → ℕ → Option ℕ
  | [], _, _ => none
  | flow :: rest, cumulative, i =>
    if 0 ≤ cumulative + flow then some i
    else paybackScan rest (cumulative + flow) (i + 1)

/-- The dict returned by `calculate_kpis`. -/
structure Kpis where
  VAN : Option ℚ
  TIR : Option ℚ
  payback : Option ℕ
  totalRevenue : ℚ
  totalExpense : ℚ
  grossMargin : ℚ
  grossMarginRatio : ℚ
deriving DecidableEq

/-- Source `calculate_kpis`: VAN, TIR, payback, gross margin and its
ratio (with the zero-revenue guard). -/
def calculate_kpis (net_cash_flow_list : List ℚ)
    (total_revenue total_expense costo_capital_anual : ℚ) : Kpis :=
  let monthly_discount_rate := costo_capital_anual / 12
  let van := calculate_npv monthly_discount_rate net_cash_flow_list
  let tir := calculate_irr net_cash_flow_list
  let payback := paybackScan net_cash_flow_list 0 0
  let gross_margin := total_revenue - total_expense
  { VAN := van
    TIR := tir
    payback := payback
    totalRevenue := total_revenue
    totalExpense := total_expense
    grossMargin := gross_margin
    grossMarginRatio := if total_revenue = 0 then 0 else gross_margin / total_revenue }

-- --- Orchestrator (financial_engine.py) ---

/-- The financial result dict returned by `calculate_financial_metrics`
(the `**kpis` fields are flattened in). -/
structure FinancialResult where
  MRC_original : ℚ
  MRC_pen : ℚ
  NRC_original : ℚ
  NRC_pen : ℚ
  VAN : Option ℚ
  TIR : Option ℚ
  payback : Option ℕ
  totalRevenue : ℚ
  totalExpense : ℚ
  grossMargin : ℚ
  grossMarginRatio : ℚ
  comisiones : ℚ
  comisionesRate : ℚ
  costoInstalacion : ℚ
  costoInstalacionRatio : ℚ
  costoCartaFianza : ℚ
  aplicaCartaFianza : Bool
  timeline : Timeline
deriving DecidableEq

/-- Source `calculate_financial_metrics`, the orchestrator. Because the
Python function mutates its input dict (and the dicts in its lists) in
place, it is modelled in state-passing style: the first component of the
result is the input dict as it stands after the call, the second is the
returned financial result. -/
def calculate_financial_metrics (data : Data) : Data × FinancialResult :=
  let converter := CurrencyConverter.init data.tipoCambio
  let plazo : ℤ := data.plazoContrato.getD 0
  -- 1. Process recurring services
  let psr := process_recurring_services data.recurring_services converter
  let monthly_expense_pen := psr.2.1
  let mrc_sum_orig := psr.2.2
  -- 2. Resolve MRC (override vs. sum from services)
  let rm := resolve_mrc data.MRC_original mrc_sum_orig
    (data.MRC_currency.getD "PEN") converter
  let mrc_orig := rm.1
  let mrc_pen := rm.2
  -- 3. NRC normalization
  let nrc_orig := data.NRC_original.getD 0
  let nrc_pen := converter.to_pen (some nrc_orig) (data.NRC_currency.getD "PEN")
  -- 4. Fixed costs
  let pfc := process_fixed_costs data.fixed_costs converter
  let installation_pen := pfc.2
  -- 5. Carta Fianza
  let cf := calculate_carta_fianza (data.aplicaCartaFianza.getD false)
    data.tasaCartaFianza plazo mrc_orig (data.MRC_currency.getD "PEN") converter
  let cf_pen := cf.2
  -- 6. Revenue & pre-commission margin
  let total_revenue := nrc_pen + mrc_pen * (plazo : ℚ)
  let total_expense_pre := installation_pen + monthly_expense_pen * (plazo : ℚ)
  let gm_pre := total_revenue - total_expense_pre
  let gm_ratio := if total_revenue = 0 then 0 else gm_pre / total_revenue
  -- in-place list mutations of steps 1 and 4 are reflected in the dict
  let data1 := { data with recurring_services := psr.1, fixed_costs := pfc.1 }
  -- 7. Commission
  let cc := calculate_commission data1 total_revenue gm_pre gm_ratio mrc_pen
  let data2 := cc.1
  let comisiones := cc.2
  -- 8. Timeline
  let bt := build_timeline (plazo + 1).toNat nrc_pen mrc_pen comisiones
    cf_pen monthly_expense_pen data2.fixed_costs
  let fixed_applied := bt.2.1
  let ncf_list := bt.2.2
  -- 9. KPIs
  let total_expense := comisiones + fixed_applied +
    monthly_expense_pen * (plazo : ℚ) + cf_pen
  let kpis := calculate_kpis ncf_list total_revenue total_expense
    (data2.costoCapitalAnual.getD 0)
  (data2,
   { MRC_original := mrc_orig
     MRC_pen := mrc_pen
     NRC_original := nrc_orig
     NRC_pen := nrc_pen
     VAN := kpis.VAN
     TIR := kpis.TIR
     payback := kpis.payback
     totalRevenue := kpis.totalRevenue
     totalExpense := kpis.totalExpense
     grossMargin := kpis.grossMargin
     grossMarginRatio := kpis.grossMarginRatio
     comisiones := comisiones
     comisionesRate := if total_revenue = 0 then 0 else comisiones / total_revenue
     costoInstalacion := fixed_applied
     costoInstalacionRatio := if total_revenue = 0 then 0 else fixed_applied / total_revenue
     costoCartaFianza := cf_pen
     aplicaCartaFianza := data.aplicaCartaFianza.getD false
     timeline := bt.1 })

-- --- Named intermediate values of the orchestrator (used to state the
-- characterisation of the mutated dict; each is definitionally the
-- corresponding `let` of `calculate_financial_metrics`) ---

/-- The converter built by step 0 of the orchestrator. -/
def engineConverter (d : Data) : CurrencyConverter :=
  CurrencyConverter.init d.tipoCambio

/-- `total_monthly_expense_pen` of step 1. -/
def engineMonthlyExpense (d : Data) : ℚ :=
  (process_recurring_services d.recurring_services (engineConverter d)).2.1

/-- `mrc_sum_from_services_orig` of step 1. -/
def engineMrcSum (d : Data) : ℚ :=
  (process_recurring_services d.recurring_services (engineConverter d)).2.2

/-- The resolved PEN MRC of step 2. -/
def engineMrcPen (d : Data) : ℚ :=
  (resolve_mrc d.MRC_original (engineMrcSum d) (d.MRC_currency.getD "PEN")
    (engineConverter d)).2

/-- The PEN NRC of step 3. -/
def engineNrcPen (d : Data) : ℚ :=
  (engineConverter d).to_pen (some (d.NRC_original.getD 0))
    (d.NRC_currency.getD "PEN")

/-- `total_installation_pen` of step 4. -/
def engineInstallation (d : Data) : ℚ :=
  (process_fixed_costs d.fixed_costs (engineConverter d)).2

/-- `total_revenue` of step 6. -/
def engineTotalRevenue (d : Data) : ℚ :=
  engineNrcPen d + engineMrcPen d * (d.plazoContrato.getD 0 : ℚ)

/-- `total_expense_pre` of step 6. -/
def engineTotalExpensePre (d : Data) : ℚ :=
  engineInstallation d + engineMonthlyExpense d * (d.plazoContrato.getD 0 : ℚ)

/-- `gm_pre` of step 6. -/
def engineGrossMarginPre (d : Data) : ℚ :=
  engineTotalRevenue d - engineTotalExpensePre d

/-- `gm_ratio` of step 6. -/
def engineGrossMarginRatio (d : Data) : ℚ :=
  if engineTotalRevenue d = 0 then 0
  else engineGrossMarginPre d / engineTotalRevenue d

-- --- Projections of the input (non-derived) keys, used to state that
-- the engine never rewrites an original input field ---

/-- The input keys of a recurring service line (everything except the
derived `_pen` keys). -/
def ServiceLine.origKeys (i : ServiceLine) :
    Option ℚ × Option ℚ × Option String × Option ℚ × Option ℚ × Option String :=
  (i.Q, i.P_original, i.P_currency, i.CU1_original, i.CU2_original, i.CU_currency)

/-- The input keys of a fixed cost line (everything except the derived
`costoUnitario_pen` and `total_pen`). -/
def FixedCostLine.origKeys (i : FixedCostLine) :
    Option ℚ × Option ℚ × Option String × Option ℤ × Option ℤ × Option ℤ ×
      Option String × Option String :=
  (i.cantidad, i.costoUnitario_original, i.costoUnitario_currency,
   i.periodo_inicio, i.duracion_meses, i.id, i.categoria, i.tipo_servicio)

-- --- Concrete inputs used by the claim witnesses and counterexamples ---

/-- A data dict with every key absent and empty line lists. -/
def emptyData : Data where
  tipoCambio := none
  plazoContrato := none
  recurring_services := []
  MRC_original := none
  MRC_currency := none
  NRC_original := none
  NRC_currency := none
  fixed_costs := []
  aplicaCartaFianza := none
  tasaCartaFianza := none
  costoCapitalAnual := none
  unidadNegocio := none
  MRC := none
  payback := none
  gigalan_region := none
  gigalan_sale_type := none
  gigalan_old_mrc := none
  totalRevenue := none
  grossMargin := none
  grossMarginRatio := none
  MRC_pen := none

/-- ESTADO input of the spec's recurring worked example: term 12,
payback 5; the raw dict carries no `MRC` key (the orchestrator only ever
writes `MRC_pen`). -/
def estadoDealData : Data :=
  { emptyData with
      unidadNegocio := some "ESTADO"
      plazoContrato := some 12
      payback := some 5 }

/-- GIGALAN input with region and sale type present, a margin ratio in
the 0.50-0.60 LIMA band, a positive MRC and term, and an unknown (None)
payback. -/
def gigalanNullPaybackData : Data :=
  { emptyData with
      unidadNegocio := some "GIGALAN"
      gigalan_region := some "LIMA"
      gigalan_sale_type := some "NUEVO"
      grossMarginRatio := some 0.55
      MRC := some 100
      plazoContrato := some 12 }

/-- The same GIGALAN input with payback exactly 2. -/
def gigalanPayback2Data : Data :=
  { gigalanNullPaybackData with payback := some 2 }

/-- A GIGALAN input with the region missing. -/
def gigalanNoRegionData : Data :=
  { gigalanNullPaybackData with gigalan_region := none, payback := some 1 }

/-- A GIGALAN upgrade (EXISTENTE) whose prior MRC exceeds the new MRC:
rate 0.015 (LIMA, ratio 0.55), qualifying payback 1, term 12, MRC 100,
prior MRC 200. -/
def gigalanUpgradeData : Data :=
  { emptyData with
      unidadNegocio := some "GIGALAN"
      gigalan_region := some "LIMA"
      gigalan_sale_type := some "EXISTENTE"
      grossMarginRatio := some 0.55
      MRC := some 100
      gigalan_old_mrc := some 200
      plazoContrato := some 12
      payback := some 1 }

/-- A CORPORATIVO input whose raw `MRC` key is negative. -/
def corporativoNegData : Data :=
  { emptyData with unidadNegocio := some "CORPORATIVO", MRC := some (-10) }

/-- A CORPORATIVO input with a positive `MRC` key. -/
def corporativoPosData : Data :=
  { emptyData with unidadNegocio := some "CORPORATIVO", MRC := some 50 }

/-- A fixed cost line carrying only the keys `build_timeline` reads:
total 12 PEN, starting at period 1, spread over 3 months. -/
def sampleCostLine : FixedCostLine where
  cantidad := none
  costoUnitario_original := none
  costoUnitario_currency := none
  costoUnitario_pen := none
  total_pen := some 12
  periodo_inicio := some 1
  duracion_meses := some 3
  id := none
  categoria := none
  tipo_servicio := none

/-- A zero-total fixed cost line whose 2-month window starts at period 0
(so it runs past a 1-period horizon). -/
def zeroTotalCostLine : FixedCostLine :=
  { sampleCostLine with total_pen := some 0, periodo_inicio := some 0,
                        duracion_meses := some 2 }

-- ===================================================================
-- Theorems
-- ===================================================================

-- --- Dispatch lemmas for `_calculate_final_commission` ---

/-- Dispatch: an ESTADO dict routes to the ESTADO rule set. -/
theorem final_commission_estado (d : Data)
    (h : d.unidadNegocio = some "ESTADO") :
    calculate_final_commission d = calculate_estado_commission d := by
  unfold calculate_final_commission
  rw [h]
  simp

/-- Dispatch: a GIGALAN dict routes to the GIGALAN rule set. -/
theorem final_commission_gigalan (d : Data)
    (h : d.unidadNegocio = some "GIGALAN") :
    calculate_final_commission d = calculate_gigalan_commission d := by
  unfold calculate_final_commission
  rw [h]
  simp

/-- Dispatch: a CORPORATIVO dict routes to the CORPORATIVO placeholder. -/
theorem final_commission_corporativo (d : Data)
    (h : d.unidadNegocio = some "CORPORATIVO") :
    calculate_final_commission d = calculate_corporativo_commission d := by
  unfold calculate_final_commission
  rw [h]
  simp

-- --- List helper lemmas ---

/-- Indexing a map over `List.range`. -/
theorem getD_map_range (n i : ℕ) (f : ℕ → ℚ) :
    ((List.range n).map f).getD i 0 = if i < n then f i else 0 := by
  rcases lt_or_le i n with h | h
  · simp [List.getD_eq_getElem?_getD, List.getElem?_map, List.getElem?_range, h]
  · rw [List.getD_eq_getElem?_getD, List.getElem?_eq_none (by simpa using h)]
    simp [h.not_lt]

/-- Indexing a zero `replicate` always gives 0 (also out of range). -/
theorem getD_replicate_zero (n i : ℕ) : (List.replicate n (0:ℚ)).getD i 0 = 0 := by
  rw [List.getD_eq_getElem?_getD, List.getElem?_replicate]
  split <;> rfl

/-- Sum after an in-range `List.set`. -/
theorem sum_set_getD (l : List ℚ) (i : ℕ) (v : ℚ) (h : i < l.length) :
    (l.set i v).sum = l.sum - l.getD i 0 + v := by
  rw [List.sum_set', dif_pos h, List.getD_eq_getElem l 0 h]
  ring

/-- Indexing after a `List.set`. -/
theorem getD_set (l : List ℚ) (i j : ℕ) (v : ℚ) :
    (l.set i v).getD j 0 = if i = j ∧ i < l.length then v else l.getD j 0 := by
  rcases eq_or_ne i j with rfl | hne
  · rcases lt_or_le i l.length with h | h
    · simp [List.getD_eq_getElem?_getD, List.getElem?_set_self, h]
    · simp [List.set_eq_of_length_le h, h.not_lt]
  · simp [List.getD_eq_getElem?_getD, List.getElem?_set_ne hne, hne]

/-- The sum of the MRC revenue row: `m` at each of periods `1..term`. -/
theorem sum_mrc_row (m : ℚ) :
    ∀ term : ℕ,
      (((List.range (term+1)).map fun i => if 1 ≤ i then m else 0).sum) = m * term
  | 0 => by rw [List.range_succ]; simp
  | (t+1) => by
    rw [List.range_succ, List.map_append, List.sum_append, sum_mrc_row m t]
    simp only [List.map_cons, List.map_nil, List.sum_cons, List.sum_nil]
    rw [if_pos (by omega)]
    push_cast
    ring

-- --- C6: timeline conservation ---

/-- C6: in the timeline built by `build_timeline` over `term+1` periods,
the NRC posts entirely at period 0 (zero at every later period), the MRC
posts at each of periods `1..term` and never at period 0, and the total
revenue summed across all periods is exactly `NRC + MRC*term`. -/
theorem timeline_conservation (term : ℕ)
    (nrc_pen mrc_pen comisiones carta monthly : ℚ)
    (fixed_costs : List FixedCostLine) :
    (build_timeline (term + 1) nrc_pen mrc_pen comisiones carta monthly
        fixed_costs).1.nrc.getD 0 0 = nrc_pen ∧
    (∀ i : ℕ, (build_timeline (term + 1) nrc_pen mrc_pen comisiones carta
        monthly fixed_costs).1.nrc.getD (i + 1) 0 = 0) ∧
    (build_timeline (term + 1) nrc_pen mrc_pen comisiones carta monthly
        fixed_costs).1.mrc.getD 0 0 = 0 ∧
    (∀ i : ℕ, (build_timeline (term + 1) nrc_pen mrc_pen comisiones carta
        monthly fixed_costs).1.mrc.getD (i + 1) 0 =
        if i + 1 ≤ term then mrc_pen else 0) ∧
    (build_timeline (term + 1) nrc_pen mrc_pen comisiones carta monthly
        fixed_costs).1.nrc.sum +
      (build_timeline (term + 1) nrc_pen mrc_pen comisiones carta monthly
        fixed_costs).1.mrc.sum = nrc_pen + mrc_pen * term := by
  have hnrc : (build_timeline (term + 1) nrc_pen mrc_pen comisiones carta
      monthly fixed_costs).1.nrc =
      (List.replicate (term + 1) (0:ℚ)).set 0 nrc_pen := by
    simp [build_timeline, pySet]
  have hmrc : (build_timeline (term + 1) nrc_pen mrc_pen comisiones carta
      monthly fixed_costs).1.mrc =
      (List.range (term + 1)).map (fun i => if 1 ≤ i then mrc_pen else 0) := by
    simp [build_timeline]
  refine ⟨?_, ?_, ?_, ?_, ?_⟩
  · rw [hnrc, getD_set]
    simp
  · intro i
    rw [hnrc, getD_set]
    simp [getD_replicate_zero]
  · rw [hmrc, getD_map_range]
    simp
  · intro i
    rw [hmrc, getD_map_range]
    split_ifs <;> first | rfl | omega
  · rw [hnrc, hmrc, sum_set_getD _ _ _ (by simp), sum_mrc_row]
    simp [getD_replicate_zero]

-- --- C7: fixed-cost distribution ---

/-- Invariant of the fixed-cost distribution loop `fcApply`, for a
nonnegative start index and an all-zero suffix: the applied total is
`dist` times the number of in-horizon periods, the written values sum to
the negative of that, each touched period holds `-dist`, and the length
is preserved. -/
theorem fcApply_spec (np : ℕ) (dist : ℚ) :
    ∀ (k s : ℕ) (vals : List ℚ) (acc : ℚ),
      vals.length = np → (∀ t, s ≤ t → vals.getD t 0 = 0) →
      (fcApply np dist k (s : ℤ) vals acc).2
          = acc + dist * ((min k (np - s) : ℕ) : ℚ) ∧
      (fcApply np dist k (s : ℤ) vals acc).1.sum
          = vals.sum - dist * ((min k (np - s) : ℕ) : ℚ) ∧
      (∀ t : ℕ, (fcApply np dist k (s : ℤ) vals acc).1.getD t 0 =
        if s ≤ t ∧ t < s + k ∧ t < np then -dist else vals.getD t 0) ∧
      (fcApply np dist k (s : ℤ) vals acc).1.length = np
  | 0, s, vals, acc, hlen, hz => by
    refine ⟨by simp [fcApply], by simp [fcApply], fun t => ?_, by simp [fcApply, hlen]⟩
    simp only [fcApply]
    split_ifs with h
    · omega
    · rfl
  | (k+1), s, vals, acc, hlen, hz => by
    rw [show (fcApply np dist (k+1) (s : ℤ) vals acc) =
        (if (s:ℤ) < (np:ℤ) then
          fcApply np dist k ((s:ℤ) + 1) (pySet vals (s:ℤ) (-dist)) (acc + dist)
        else fcApply np dist k ((s:ℤ) + 1) vals acc) from rfl]
    by_cases hs : s < np
    · rw [if_pos (by exact_mod_cast hs)]
      have hset : pySet vals (s:ℤ) (-dist) = vals.set s (-dist) := by
        simp [pySet]
      rw [hset]
      have hlen2 : (vals.set s (-dist)).length = np := by simp [hlen]
      have hz2 : ∀ t, s + 1 ≤ t → (vals.set s (-dist)).getD t 0 = 0 := by
        intro t ht
        rw [getD_set]
        rw [if_neg (by omega)]
        exact hz t (by omega)
      have hcast : ((s:ℤ) + 1) = ((s + 1 : ℕ) : ℤ) := by push_cast; ring
      rw [hcast]
      obtain ⟨ih2, ihsum, ihget, ihlen⟩ :=
        fcApply_spec np dist k (s+1) (vals.set s (-dist)) (acc + dist) hlen2 hz2
      have hmin : min (k+1) (np - s) = min k (np - (s+1)) + 1 := by omega
      have hsum_set : (vals.set s (-dist)).sum = vals.sum - dist := by
        rw [sum_set_getD _ _ _ (by omega)]
        rw [hz s le_rfl]
        ring
      refine ⟨?_, ?_, ?_, ihlen⟩
      · rw [ih2, hmin]
        push_cast
        ring
      · rw [ihsum, hsum_set, hmin]
        push_cast
        ring
      · intro t
        rw [ihget t, getD_set]
        by_cases hts : t = s
        · subst hts
          rw [if_neg (by omega), if_pos (by omega), if_pos (by omega)]
        · by_cases hc : s ≤ t ∧ t < s + (k+1) ∧ t < np
          · rw [if_pos (by omega), if_pos (by omega)]
          · rw [if_neg (by omega), if_neg (by omega), if_neg (by omega)]
    · rw [if_neg (by exact_mod_cast hs)]
      have hcast : ((s:ℤ) + 1) = ((s + 1 : ℕ) : ℤ) := by push_cast; ring
      rw [hcast]
      have hz2 : ∀ t, s + 1 ≤ t → vals.getD t 0 = 0 := fun t ht => hz t (by omega)
      obtain ⟨ih2, ihsum, ihget, ihlen⟩ :=
        fcApply_spec np dist k (s+1) vals acc hlen hz2
      have hmin : min (k+1) (np - s) = min k (np - (s+1)) := by omega
      refine ⟨by rw [ih2, hmin], by rw [ihsum, hmin], ?_, ihlen⟩
      intro t
      rw [ihget t]
      by_cases hc : s + 1 ≤ t ∧ t < s + 1 + k ∧ t < np
      · omega
      · rw [if_neg hc, if_neg (by omega)]

/-- C7 amended: a fixed-cost line with duration >= 1 and start >= 0 is
divided evenly (`-total/duration` at each period of its window inside
the horizon, 0 elsewhere); a line whose window lies fully inside the
horizon sums to `-total` with applied total exactly `total`; a line
whose window runs past the horizon and has POSITIVE total has applied
total strictly below the nominal total, and its values sum to
`-(total applied)`. (The strictness claim fails for a zero-total line,
see the counterexample.) -/
theorem fixed_cost_distribution (np start dur : ℕ) (total : ℚ)
    (item : FixedCostLine) (hdur : 1 ≤ dur)
    (hstart : item.periodo_inicio = some (start : ℤ))
    (hd : item.duracion_meses = some (dur : ℤ))
    (ht : item.total_pen = some total) :
    (∀ t : ℕ, (processCostItem np item).1.timeline_values.getD t 0 =
       if start ≤ t ∧ t < start + dur ∧ t < np then -(total / (dur:ℚ)) else 0) ∧
    (start + dur ≤ np →
       (processCostItem np item).1.timeline_values.sum = -total ∧
       (processCostItem np item).2 = total) ∧
    (np < start + dur → 0 < total →
       (processCostItem np item).2 < total ∧
       (processCostItem np item).1.timeline_values.sum
         = -(processCostItem np item).2) := by
  have hdz : ((dur : ℤ)) ≠ 0 := by omega
  have hfc1 : (processCostItem np item).1.timeline_values =
      (fcApply np (total / (dur:ℚ)) dur ((start:ℕ):ℤ)
        (List.replicate np 0) 0).1 := by
    simp [processCostItem, hstart, hd, ht, pyIntOr1, hdz]
  have hfc2 : (processCostItem np item).2 =
      (fcApply np (total / (dur:ℚ)) dur ((start:ℕ):ℤ)
        (List.replicate np 0) 0).2 := by
    simp [processCostItem, hstart, hd, ht, pyIntOr1, hdz]
  obtain ⟨hacc, hsum, hget, hlen⟩ :=
    fcApply_spec np (total / (dur:ℚ)) dur start (List.replicate np 0) 0
      (by simp) (fun t _ => getD_replicate_zero np t)
  have hrepl : (List.replicate np (0:ℚ)).sum = 0 := by simp
  have hdq : ((dur:ℚ)) ≠ 0 := by exact_mod_cast hdz
  refine ⟨?_, ?_, ?_⟩
  · intro t
    rw [hfc1, hget t, getD_replicate_zero]
  · intro hin
    have hmin : min dur (np - start) = dur := by omega
    constructor
    · rw [hfc1, hsum, hrepl, hmin]
      field_simp
    · rw [hfc2, hacc, hmin]
      field_simp
  · intro hpast htot
    have hmin : min dur (np - start) = np - start := by omega
    have hlt : np - start < dur := by omega
    have hdistpos : 0 < total / (dur:ℚ) := by positivity
    constructor
    · rw [hfc2, hacc, hmin]
      calc (0:ℚ) + total / (dur:ℚ) * ((np - start : ℕ) : ℚ)
          < total / (dur:ℚ) * ((dur : ℕ) : ℚ) := by
            rw [zero_add]
            exact mul_lt_mul_of_pos_left (by exact_mod_cast hlt) hdistpos
        _ = total := by field_simp
    · rw [hfc1, hfc2, hsum, hacc, hrepl]
      ring

/-- Witness for C7 (amended) at a 12 PEN line over periods 1-3 of a
4-period horizon. -/
theorem fixed_cost_distribution_witness :
    (processCostItem 4 sampleCostLine).1.timeline_values.sum = -12 ∧
    (processCostItem 4 sampleCostLine).2 = 12 :=
  (fixed_cost_distribution 4 1 3 12 sampleCostLine (by norm_num) rfl rfl rfl).2.1
    (by norm_num)

/-- C7 counterexample: a zero-total line whose 2-month window starts at
period 0 runs past a 1-period horizon, yet its applied total equals its
nominal total (both 0), refuting the unconditioned "strictly less"
claim. -/
theorem fixed_cost_clipping_zero_total_counterexample :
    (1:ℕ) < 0 + 2 ∧
    (processCostItem 1 zeroTotalCostLine).2 = 0 ∧
    zeroTotalCostLine.total_pen.getD 0 = 0 ∧
    ¬ ((processCostItem 1 zeroTotalCostLine).2
        < zeroTotalCostLine.total_pen.getD 0) := by
  refine ⟨by norm_num, ?_, rfl, ?_⟩ <;>
    norm_num [processCostItem, zeroTotalCostLine, sampleCostLine, pyIntOr1,
      fcApply, pySet]

-- --- C8: IRR pre-check ---

/-- C8: for every cash-flow series that does not contain both a strictly
positive and a strictly negative value (in particular any all-positive,
all-negative, all-zero or too-short series), `calculate_irr` returns None
before entering the Newton-Raphson loop. -/
theorem irr_none_without_sign_change (cash_flows : List ℚ)
    (h : (¬ ∃ cf ∈ cash_flows, 0 < cf) ∨ (¬ ∃ cf ∈ cash_flows, cf < 0)) :
    calculate_irr cash_flows = none := by
  unfold calculate_irr
  split
  · rfl
  · rw [if_pos]
    rintro ⟨hp, hn⟩
    rw [List.any_eq_true] at hp hn
    rcases h with h | h
    · exact h ⟨hp.choose, hp.choose_spec.1, by simpa using hp.choose_spec.2⟩
    · exact h ⟨hn.choose, hn.choose_spec.1, by simpa using hn.choose_spec.2⟩

/-- Witness for C8 at the all-positive series `[1, 2, 3]`. -/
theorem irr_none_without_sign_change_witness :
    calculate_irr [1, 2, 3] = none :=
  irr_none_without_sign_change [1, 2, 3] (Or.inr (by decide))

-- --- C9: CurrencyConverter ---

/-- C9 counterexample: the claim accepts a zero locked rate "as given",
so it predicts `toBase(5, FOREIGN) = 5 × 0 = 0`; but the constructor
(`tipo_cambio or 1`) replaces a zero rate by 1 and the conversion
returns 5. -/
theorem zero_rate_not_accepted_counterexample :
    (CurrencyConverter.init (some 0)).to_pen (some 5) "USD" = 5 ∧
    (CurrencyConverter.init (some 0)).to_pen (some 5) "USD" ≠ 5 * 0 := by
  simp [CurrencyConverter.init, CurrencyConverter.to_pen]

/-- C9 amended: conversion to the base currency returns the amount
unchanged and an absent amount is treated as 0, for every locked rate;
conversion from the foreign currency multiplies by the rate for every
NONZERO rate (negative rates included, accepted as given) — a zero rate
is replaced by 1 at construction, so the foreign conversion then returns
the amount unchanged instead of 0. -/
theorem to_pen_locked_rate (rate a : ℚ) :
    (CurrencyConverter.init (some rate)).to_pen (some a) "PEN" = a ∧
    (rate ≠ 0 →
      (CurrencyConverter.init (some rate)).to_pen (some a) "USD" = a * rate) ∧
    (CurrencyConverter.init (some rate)).to_pen none "PEN" = 0 ∧
    (CurrencyConverter.init (some rate)).to_pen none "USD" = 0 := by
  exact ⟨by simp [CurrencyConverter.to_pen],
    fun hr => by simp [CurrencyConverter.init, CurrencyConverter.to_pen, hr],
    by simp [CurrencyConverter.to_pen],
    by simp [CurrencyConverter.to_pen]⟩

/-- Witness for C9 at rate `-2`, amount `7`. -/
theorem to_pen_locked_rate_witness :
    (CurrencyConverter.init (some (-2))).to_pen (some 7) "PEN" = 7 ∧
    (CurrencyConverter.init (some (-2))).to_pen (some 7) "USD" = 7 * (-2) :=
  ⟨(to_pen_locked_rate (-2) 7).1, (to_pen_locked_rate (-2) 7).2.1 (by norm_num)⟩

-- --- C5: CORPORATIVO ---

/-- C5 counterexample: for a CORPORATIVO input whose raw `MRC` key is
negative, the placeholder returns `min(0, 1.2 × MRC) = 1.2 × MRC < 0`,
not 0. -/
theorem corporativo_negative_mrc_counterexample :
    calculate_final_commission corporativoNegData = -12 ∧
    calculate_final_commission corporativoNegData ≠ 0 := by
  rw [final_commission_corporativo corporativoNegData rfl]
  unfold calculate_corporativo_commission
  norm_num [corporativoNegData, emptyData, min_def]

/-- C5 amended: for every CORPORATIVO input whose `MRC` value (absent
defaulting to 0) is nonnegative, the commission is exactly 0; with a
negative `MRC` the `min` returns the negative cap instead. -/
theorem corporativo_commission_zero_of_nonneg_mrc (d : Data)
    (hm : 0 ≤ d.MRC.getD 0) : calculate_corporativo_commission d = 0 := by
  unfold calculate_corporativo_commission
  exact min_eq_left (by nlinarith)

/-- Witness for C5 (amended) at a CORPORATIVO input with MRC 50. -/
theorem corporativo_commission_zero_witness :
    calculate_corporativo_commission corporativoPosData = 0 :=
  corporativo_commission_zero_of_nonneg_mrc corporativoPosData
    (by norm_num [corporativoPosData, emptyData])

-- --- C3: GIGALAN guards ---

/-- C3 counterexample: a GIGALAN input with region and sale type present
and an unknown (None) payback does not yield 0: the payback guard only
fires when the payback is known and `>= 2`, so the full formula amount
`0.014 × 100 × 12 = 16.8` is returned. -/
theorem gigalan_null_payback_counterexample :
    gigalanNullPaybackData.payback = none ∧
    calculate_final_commission gigalanNullPaybackData = 84 / 5 ∧
    calculate_final_commission gigalanNullPaybackData ≠ 0 := by
  rw [final_commission_gigalan gigalanNullPaybackData rfl]
  unfold calculate_gigalan_commission gigalanAmount
  norm_num [gigalanNullPaybackData, emptyData, pyTruthyStr]
  decide

/-- C3 amended: the GIGALAN commission is 0 whenever region or sale type
is missing or empty, and 0 whenever the payback is known and `>= 2`
(in particular payback exactly 2); but an unknown (None) payback is NOT
routed to 0 — it falls through to the rate matrix. -/
theorem gigalan_zero_guards (d : Data) (p : ℚ) :
    ((¬ pyTruthyStr d.gigalan_region ∨ ¬ pyTruthyStr d.gigalan_sale_type) →
      calculate_gigalan_commission d = 0) ∧
    (d.payback = some p → 2 ≤ p → calculate_gigalan_commission d = 0) := by
  constructor
  · intro h
    unfold calculate_gigalan_commission
    rw [if_pos (by simpa using h)]
  · intro hp h2
    unfold calculate_gigalan_commission
    rw [hp]
    simp only [h2, if_true, ite_self]

/-- Witness for C3 (amended): the missing-region guard and the
payback-2 guard each produce 0 at a concrete input. -/
theorem gigalan_zero_guards_witness :
    calculate_gigalan_commission gigalanNoRegionData = 0 ∧
    calculate_gigalan_commission gigalanPayback2Data = 0 :=
  ⟨(gigalan_zero_guards gigalanNoRegionData 0).1 (Or.inl (by decide)),
   (gigalan_zero_guards gigalanPayback2Data 2).2 rfl (by norm_num)⟩

-- --- C10: GIGALAN upgrade formula is unclamped ---

/-- C10: a GIGALAN EXISTENTE upgrade with region LIMA, margin ratio 0.55
(rate 0.015), qualifying payback 1, term 12 and prior MRC 200 above the
new MRC 100 produces `0.015 × 12 × (100 − 200) = −18`: the upgrade
formula is never clamped at zero. -/
theorem gigalan_upgrade_negative_commission :
    gigalanUpgradeData.unidadNegocio = some "GIGALAN" ∧
    gigalanUpgradeData.gigalan_sale_type = some "EXISTENTE" ∧
    gigalanUpgradeData.MRC.getD 0 < gigalanUpgradeData.gigalan_old_mrc.getD 0 ∧
    calculate_final_commission gigalanUpgradeData = -18 ∧
    calculate_final_commission gigalanUpgradeData < 0 := by
  have h : calculate_final_commission gigalanUpgradeData = -18 := by
    rw [final_commission_gigalan gigalanUpgradeData rfl]
    unfold calculate_gigalan_commission gigalanAmount
    norm_num [gigalanUpgradeData, emptyData, pyTruthyStr]
    decide
  refine ⟨rfl, rfl, by norm_num [gigalanUpgradeData, emptyData], h, ?_⟩
  rw [h]
  norm_num

-- --- C2: ESTADO recurring tier through the engine step ---

/-- C2 (bug evidence): at the spec's worked example (term 12, margin
ratio 0.40, payback 5, resolved PEN MRC 50000, revenue 600000) the tier
matches (rate 0.035), yet the commission computed through the engine's
commission step is 0, not `min(600000 × 0.035, 50000 × 1.0) = 21000`:
`calculate_commission` stores the resolved PEN MRC under the dict key
`MRC_pen` while `_calculate_estado_commission` reads the key `MRC`
(absent here, defaulting to 0), so the cap is `0 × 1.0 = 0`. The second
conjunct shows that the same dict with the resolved MRC under the key
the rule actually reads yields the expected 21000. -/
theorem estado_commission_mrc_key_mismatch :
    (calculate_commission estadoDealData 600000 240000 (2/5) 50000).2 = 0 ∧
    calculate_estado_commission
      { (calculate_commission estadoDealData 600000 240000 (2/5) 50000).1
          with MRC := some 50000 } = 21000 := by
  have main : calculate_estado_commission
      (calculate_commission estadoDealData 600000 240000 (2/5) 50000).1 = 0 := by
    unfold calculate_estado_commission calculate_commission
    norm_num [estadoDealData, emptyData, min_def]
  constructor
  · exact (final_commission_estado
      (calculate_commission estadoDealData 600000 240000 (2/5) 50000).1 rfl).trans main
  · unfold calculate_estado_commission calculate_commission
    norm_num [estadoDealData, emptyData, min_def]

-- --- Enrichment lemmas: the in-place writes of steps 1 and 4 are
-- idempotent and never touch an original input key ---

theorem enrichService_idem (c : CurrencyConverter) (i : ServiceLine) :
    enrichService c (enrichService c i) = enrichService c i := rfl

theorem enrichService_Q (c : CurrencyConverter) (i : ServiceLine) :
    (enrichService c i).Q = i.Q := rfl

theorem enrichService_P_original (c : CurrencyConverter) (i : ServiceLine) :
    (enrichService c i).P_original = i.P_original := rfl

theorem enrichService_P_currency (c : CurrencyConverter) (i : ServiceLine) :
    (enrichService c i).P_currency = i.P_currency := rfl

theorem enrichService_CU1_original (c : CurrencyConverter) (i : ServiceLine) :
    (enrichService c i).CU1_original = i.CU1_original := rfl

theorem enrichService_CU2_original (c : CurrencyConverter) (i : ServiceLine) :
    (enrichService c i).CU2_original = i.CU2_original := rfl

theorem enrichService_CU_currency (c : CurrencyConverter) (i : ServiceLine) :
    (enrichService c i).CU_currency = i.CU_currency := rfl

theorem enrichFixedCost_idem (c : CurrencyConverter) (i : FixedCostLine) :
    enrichFixedCost c (enrichFixedCost c i) = enrichFixedCost c i := rfl

theorem enrichFixedCost_cantidad (c : CurrencyConverter) (i : FixedCostLine) :
    (enrichFixedCost c i).cantidad = i.cantidad := rfl

theorem enrichFixedCost_costoUnitario_original (c : CurrencyConverter) (i : FixedCostLine) :
    (enrichFixedCost c i).costoUnitario_original = i.costoUnitario_original := rfl

theorem enrichFixedCost_costoUnitario_currency (c : CurrencyConverter) (i : FixedCostLine) :
    (enrichFixedCost c i).costoUnitario_currency = i.costoUnitario_currency := rfl

theorem enrichFixedCost_periodo_inicio (c : CurrencyConverter) (i : FixedCostLine) :
    (enrichFixedCost c i).periodo_inicio = i.periodo_inicio := rfl

theorem enrichFixedCost_duracion_meses (c : CurrencyConverter) (i : FixedCostLine) :
    (enrichFixedCost c i).duracion_meses = i.duracion_meses := rfl

theorem enrichFixedCost_id (c : CurrencyConverter) (i : FixedCostLine) :
    (enrichFixedCost c i).id = i.id := rfl

theorem enrichFixedCost_categoria (c : CurrencyConverter) (i : FixedCostLine) :
    (enrichFixedCost c i).categoria = i.categoria := rfl

theorem enrichFixedCost_tipo_servicio (c : CurrencyConverter) (i : FixedCostLine) :
    (enrichFixedCost c i).tipo_servicio = i.tipo_servicio := rfl

theorem foldl_serviceStep (c : CurrencyConverter) :
    ∀ (l : List ServiceLine) (a : List ServiceLine) (x y : ℚ),
      l.foldl (serviceStep c) (a, x, y) =
        (a ++ l.map (enrichService c),
         x + (l.map fun i => (enrichService c i).egreso_pen.getD 0).sum,
         y + (l.map fun i => i.P_original.getD 0 * i.Q.getD 0).sum)
  | [], a, x, y => by simp
  | i :: l, a, x, y => by
    rw [List.foldl_cons]
    rw [show serviceStep c (a, x, y) i =
      (a ++ [enrichService c i], x + (enrichService c i).egreso_pen.getD 0,
       y + i.P_original.getD 0 * i.Q.getD 0) from rfl]
    rw [foldl_serviceStep c l]
    simp [add_assoc]

theorem process_recurring_services_eq (l : List ServiceLine) (c : CurrencyConverter) :
    process_recurring_services l c =
      (l.map (enrichService c),
       (l.map fun i => (enrichService c i).egreso_pen.getD 0).sum,
       (l.map fun i => i.P_original.getD 0 * i.Q.getD 0).sum) := by
  unfold process_recurring_services
  rw [foldl_serviceStep]
  simp

theorem process_recurring_services_enriched (l : List ServiceLine) (c : CurrencyConverter) :
    process_recurring_services (l.map (enrichService c)) c =
      process_recurring_services l c := by
  rw [process_recurring_services_eq, process_recurring_services_eq]
  simp [List.map_map, Function.comp_def, enrichService_idem,
    enrichService_P_original, enrichService_Q]

theorem foldl_costStep (c : CurrencyConverter) :
    ∀ (l : List FixedCostLine) (a : List FixedCostLine) (x : ℚ),
      l.foldl (costStep c) (a, x) =
        (a ++ l.map (enrichFixedCost c),
         x + (l.map fun i => (enrichFixedCost c i).total_pen.getD 0).sum)
  | [], a, x => by simp
  | i :: l, a, x => by
    rw [List.foldl_cons]
    rw [show costStep c (a, x) i =
      (a ++ [enrichFixedCost c i], x + (enrichFixedCost c i).total_pen.getD 0)
      from rfl]
    rw [foldl_costStep c l]
    simp [add_assoc]

theorem process_fixed_costs_eq (l : List FixedCostLine) (c : CurrencyConverter) :
    process_fixed_costs l c =
      (l.map (enrichFixedCost c),
       (l.map fun i => (enrichFixedCost c i).total_pen.getD 0).sum) := by
  unfold process_fixed_costs
  rw [foldl_costStep]
  simp

theorem process_fixed_costs_enriched (l : List FixedCostLine) (c : CurrencyConverter) :
    process_fixed_costs (l.map (enrichFixedCost c)) c = process_fixed_costs l c := by
  rw [process_fixed_costs_eq, process_fixed_costs_eq]
  simp [List.map_map, Function.comp_def, enrichFixedCost_idem]

/-- The input dict as mutated by one orchestrator call: the two line
lists enriched in place, and the four derived keys written by
`calculate_commission`; every other key untouched. Definitional. -/
theorem engine_fst (d : Data) :
    (calculate_financial_metrics d).1 =
      { d with
          recurring_services :=
            (process_recurring_services d.recurring_services (engineConverter d)).1,
          fixed_costs := (process_fixed_costs d.fixed_costs (engineConverter d)).1,
          totalRevenue := some (engineTotalRevenue d),
          grossMargin := some (engineGrossMarginPre d),
          grossMarginRatio := some (engineGrossMarginRatio d),
          MRC_pen := some (engineMrcPen d) } := rfl

/-- C4 counterexample: the engine is NOT side-effect free on its input
dict: already on the empty input, the call writes the derived key
`totalRevenue` (and `grossMargin`, `grossMarginRatio`, `MRC_pen`) into
the dict, so the dict after the call differs from the input. -/
theorem engine_mutates_input_counterexample :
    (calculate_financial_metrics emptyData).1 ≠ emptyData := by
  intro h
  have h2 := congrArg Data.totalRevenue h
  rw [engine_fst] at h2
  simp [emptyData] at h2

/-- C4 amended: the orchestrator mutates its input in place, but only by
writing the derived keys (`totalRevenue`, `grossMargin`,
`grossMarginRatio`, `MRC_pen` on the dict; the `_pen` keys on service
lines; `costoUnitario_pen`, `total_pen` on fixed-cost lines): every
original input key of the dict and of every line dict is unchanged. -/
theorem engine_preserves_original_input_keys (d : Data) :
    (calculate_financial_metrics d).1.tipoCambio = d.tipoCambio ∧
    (calculate_financial_metrics d).1.plazoContrato = d.plazoContrato ∧
    (calculate_financial_metrics d).1.MRC_original = d.MRC_original ∧
    (calculate_financial_metrics d).1.MRC_currency = d.MRC_currency ∧
    (calculate_financial_metrics d).1.NRC_original = d.NRC_original ∧
    (calculate_financial_metrics d).1.NRC_currency = d.NRC_currency ∧
    (calculate_financial_metrics d).1.aplicaCartaFianza = d.aplicaCartaFianza ∧
    (calculate_financial_metrics d).1.tasaCartaFianza = d.tasaCartaFianza ∧
    (calculate_financial_metrics d).1.costoCapitalAnual = d.costoCapitalAnual ∧
    (calculate_financial_metrics d).1.unidadNegocio = d.unidadNegocio ∧
    (calculate_financial_metrics d).1.MRC = d.MRC ∧
    (calculate_financial_metrics d).1.payback = d.payback ∧
    (calculate_financial_metrics d).1.gigalan_region = d.gigalan_region ∧
    (calculate_financial_metrics d).1.gigalan_sale_type = d.gigalan_sale_type ∧
    (calculate_financial_metrics d).1.gigalan_old_mrc = d.gigalan_old_mrc ∧
    (calculate_financial_metrics d).1.recurring_services.map ServiceLine.origKeys
      = d.recurring_services.map ServiceLine.origKeys ∧
    (calculate_financial_metrics d).1.fixed_costs.map FixedCostLine.origKeys
      = d.fixed_costs.map FixedCostLine.origKeys := by
  rw [engine_fst d]
  refine ⟨rfl, rfl, rfl, rfl, rfl, rfl, rfl, rfl, rfl, rfl, rfl, rfl, rfl, rfl,
    rfl, ?_, ?_⟩
  · rw [process_recurring_services_eq]
    simp only [List.map_map]
    exact List.map_congr_left fun a _ => rfl
  · rw [process_fixed_costs_eq]
    simp only [List.map_map]
    exact List.map_congr_left fun a _ => rfl

-- --- C1: determinism on an already-used input ---

/-- C1: calling the orchestrator twice in succession — the second call
receiving the input dict as mutated by the first — yields equal
Financial Results: the in-place writes are overwritten with identical
values before being read, and the keys the commission rules read from
the raw input (`MRC`, `payback`, …) are never written, so
`engine(engine(I).state) = engine(I)`. In particular `engine(I)` equals
itself on the unmutated input. -/
theorem engine_deterministic (d : Data) :
    (calculate_financial_metrics (calculate_financial_metrics d).1).2 =
      (calculate_financial_metrics d).2 := by
  rw [engine_fst d, process_recurring_services_eq, process_fixed_costs_eq]
  simp only [calculate_financial_metrics, calculate_commission, engineConverter,
    engineMonthlyExpense, engineMrcSum, engineMrcPen, engineNrcPen,
    engineInstallation, engineTotalRevenue, engineTotalExpensePre,
    engineGrossMarginPre, engineGrossMarginRatio,
    process_recurring_services_eq, process_fixed_costs_eq,
    List.map_map, Function.comp_def, enrichService_idem, enrichFixedCost_idem,
    enrichService_P_original, enrichService_Q]

end PlantillasFinanzas
